import Mathlib

/-!
Verification development for the vendor-processing backend.

The Python sources are shallowly embedded as pure Lean functions:
* `backend/services/vendor_email_service.py` — subject/attachment validation,
  document classification, vendor-id generation, parallel attachment download;
* `backend/services/webhook_processor.py` — the webhook ingestion pipeline;
* `backend/utils/pdf_converter.py` — PDF page fan-out;
* `backend/routes/chat_enhanced.py` — the chat registration state machine.

External effects (Nylas fetches and downloads, the LLM extraction capability,
PDF rasterisation, file sizes) are passed in as explicit oracle parameters,
and the filesystem is a finite set of paths threaded through the functions.
Mongo collections become lists carried in an explicit state record.
-/

namespace VendorProc

/-! ### String helpers (Python `str.lower/upper/replace/endswith`, substring `in`) -/

def strLower (s : String) : String := String.mk (s.data.map Char.toLower)

def strUpper (s : String) : String := String.mk (s.data.map Char.toUpper)

/-- Python `needle in hay` (substring containment) on char lists. -/
def subList (needle : List Char) : List Char → Bool
  | [] => needle.isEmpty
  | c :: t => needle.isPrefixOf (c :: t) || subList needle t

/-- Python `needle in hay` on strings. -/
def strContains (hay needle : String) : Bool := subList needle.data hay.data

/-- Python `s.endswith(suffix)`. -/
def strEndsWith (s suffix : String) : Bool :=
  suffix.data.reverse.isPrefixOf s.data.reverse

/-- Python `s.replace(a, b)` for single characters. -/
def strReplaceChar (s : String) (a b : Char) : String :=
  String.mk (s.data.map (fun c => if c = a then b else c))

/-- Python `f"{n:04d}"` for natural numbers. -/
def padZeros4 (n : Nat) : String :=
  let s := toString n
  String.mk (List.replicate (4 - s.length) '0') ++ s

/-- Final path component (`os.path.basename`). -/
def basenameOf (p : String) : String :=
  String.mk ((p.data.reverse.takeWhile (fun c => c ≠ '/')).reverse)

/-- `pathlib.Path(p).stem`: final component without its last extension. -/
def stemOf (p : String) : String :=
  let b := (basenameOf p).data
  let lead := b.takeWhile (fun c => c = '.')
  let rest := b.drop lead.length
  if rest.any (fun c => c = '.') then
    String.mk (b.reverse.dropWhile (fun c => c ≠ '.')).tail.reverse
  else String.mk b

/-- Directory part of a path, with its trailing slash (`Path(p).parent` as a prefix). -/
def dirOf (p : String) : String :=
  String.mk ((p.data.reverse.dropWhile (fun c => c ≠ '/')).reverse)

/-- `os.path.splitext(filename)[1]`: last extension of the basename, with the dot;
leading dots of the basename never start an extension. -/
def extOf (filename : String) : String :=
  let b := (basenameOf filename).data
  let lead := b.takeWhile (fun c => c = '.')
  let rest := b.drop lead.length
  if rest.any (fun c => c = '.') then
    String.mk ('.' :: (rest.reverse.takeWhile (fun c => c ≠ '.')).reverse)
  else ""

/-! ### `VendorEmailService.validate_subject` (validity part) -/

/-- `validate_subject`: the subject must contain both `"VENDOR"` and
`"REGISTRATION"` after upper-casing; an empty subject is invalid.
(The company-name extraction half of the Python function is not modelled:
no claim depends on it.) -/
def validate_subject_valid (subject : String) : Bool :=
  subject ≠ "" &&
    (strContains (strUpper subject) "VENDOR" &&
     strContains (strUpper subject) "REGISTRATION")

/-! ### Attachments and `VendorEmailService.validate_attachments` -/

structure Attachment where
  filename : String
  attId : String
  deriving Repr, DecidableEq

/-- Regex `catalog(?:ue)?|product|inventory` as a substring test on the
lower-cased filename. -/
def catalogueKeyword (fl : String) : Bool :=
  strContains fl "catalog" || strContains fl "product" || strContains fl "inventory"

/-- Regex `aadh[a]?ar`: either spelling as a substring. -/
def aadharKeyword (fl : String) : Bool :=
  strContains fl "aadhar" || strContains fl "aadhaar"

/-- `valid_extensions_pdf_image = [".pdf", ".jpg", ".jpeg", ".png"]`. -/
def validPdfImageExt (fl : String) : Bool :=
  strEndsWith fl ".pdf" || strEndsWith fl ".jpg" ||
  strEndsWith fl ".jpeg" || strEndsWith fl ".png"

/-- Accumulator of the `for att in attachments` loop of `validate_attachments`:
the issues list plus the `found_types` set (one flag per possible member). -/
structure VAcc where
  issues : List String
  foundAadhar : Bool
  foundPan : Bool
  foundGst : Bool
  foundCatalogue : Bool
  deriving Repr, DecidableEq

/-- One iteration of the `validate_attachments` loop. -/
def va_step (acc : VAcc) (att : Attachment) : VAcc :=
  let fl := strLower att.filename
  if catalogueKeyword fl then
    if strEndsWith fl ".csv" then { acc with foundCatalogue := true }
    else { acc with issues := acc.issues ++
      ["Invalid extension for catalogue: " ++ att.filename ++ " (must be .csv)"] }
  else if !validPdfImageExt fl then
    { acc with issues := acc.issues ++
      ["Invalid extension: " ++ att.filename ++
       " (must be .pdf, .jpg, .jpeg, .png, or .csv for catalogue)"] }
  else
    { acc with
      foundAadhar := acc.foundAadhar || aadharKeyword fl
      foundPan := acc.foundPan || strContains fl "pan"
      foundGst := acc.foundGst || strContains fl "gst" }

/-- `VendorEmailService.validate_attachments`: returns `(is_valid, issues)`.
The set difference `{"aadhar","pan","gst"} - found_types` is listed in the
fixed order aadhar, pan, gst (Python iterates the set in an unspecified
order; only the emptiness of the list matters to callers). -/
def validate_attachments (attachments : List Attachment) : Bool × List String :=
  let acc := attachments.foldl va_step ⟨[], false, false, false, false⟩
  let missingList :=
    (if acc.foundAadhar then [] else ["AADHAR"]) ++
    (if acc.foundPan then [] else ["PAN"]) ++
    (if acc.foundGst then [] else ["GST"])
  let issues :=
    if missingList.isEmpty then acc.issues
    else
      let joined := String.intercalate ", " missingList
      acc.issues ++ ["Missing documents: " ++ joined]
  (issues.isEmpty, issues)

/-! ### `VendorEmailService.classify_document_type` -/

def classify_document_type (filename : String) : Option String :=
  let fl := strLower filename
  if strEndsWith fl ".csv" &&
      (strContains fl "catalogue" || strContains fl "catalog" ||
       strContains fl "product" || strContains fl "inventory") then
    some "catalogue"
  else if aadharKeyword fl then some "aadhar"
  else if strContains fl "pan" then some "pan"
  else if strContains fl "gst" then some "gst"
  else none

/-! ### `VendorEmailService.generate_vendor_id` and the sanitised email -/

/-- `email.replace('@', '_').replace('.', '_')`. -/
def sanitize_email (email : String) : String :=
  strReplaceChar (strReplaceChar email '@' '_') '.' '_'

/-- `f"VENDOR_{index:04d}_{email.replace('@','_').replace('.','_')}"`. -/
def generate_vendor_id (email : String) (index : Nat) : String :=
  "VENDOR_" ++ padZeros4 index ++ "_" ++ sanitize_email email

/-! ### `PDFConverter` (`backend/utils/pdf_converter.py`)

The filesystem is a `Finset String` of existing file paths. Rasterisation is
an oracle `pdfPages : String → Option (List Nat)` giving, for a path, the
list of byte sizes of its rendered pages (`none` = `fitz` raises, so the
conversion fails). -/

structure PageImage where
  path : String
  page : Nat
  size : Nat
  originalPdf : String
  format : String
  deriving Repr, DecidableEq

/-- `PDFConverter.is_pdf`. -/
def is_pdf (file_path : String) : Bool := strEndsWith (strLower file_path) ".pdf"

/-- The converter's output-format validation: unknown formats fall back to png. -/
def pdf_output_format (output_format : String) : String :=
  if strLower output_format = "png" || strLower output_format = "jpg"
      || strLower output_format = "jpeg" then output_format else "png"

/-- `PDFConverter.convert_pdf_to_images`: raises (`Except.error`) when the file
is missing or rendering fails; otherwise writes one image per page — named
`{base}.{ext}` for a single page and `{base}_page_{n}.{ext}` for several —
deletes the source PDF, and returns the page descriptors with the new
filesystem. -/
def convert_pdf_to_images (pdfPages : String → Option (List Nat))
    (fs : Finset String) (pdf_path : String) (output_format : String) :
    Except String (List PageImage × Finset String) :=
  if pdf_path ∉ fs then .error ("PDF file not found: " ++ pdf_path)
  else
    let fmt := pdf_output_format output_format
    match pdfPages pdf_path with
    | none => .error ("Failed to convert PDF " ++ pdf_path)
    | some sizes =>
      let page_count := sizes.length
      let base_name := stemOf pdf_path
      let output_dir := dirOf pdf_path
      let imgs := (List.range page_count).map (fun i =>
        let output_filename :=
          if page_count = 1 then base_name ++ "." ++ fmt
          else base_name ++ "_page_" ++ toString (i + 1) ++ "." ++ fmt
        { path := output_dir ++ output_filename
          page := i + 1
          size := sizes.getD i 0
          originalPdf := pdf_path
          format := fmt : PageImage })
      let fs1 := imgs.foldl (fun s img => insert img.path s) fs
      .ok (imgs, fs1.erase pdf_path)

/-! ### `VendorEmailService.download_attachments_parallel` -/

structure DownloadedDoc where
  docType : String
  filename : String
  path : String
  size : Nat
  convertedFromPdf : Bool
  pdfPage : Option Nat
  deriving Repr, DecidableEq

/-- Observable log/print events of the download and upload paths. -/
inductive LogEvent where
  | skipped (filename : String)
  | downloadFailed (filename : String)
  | downloaded (filename : String)
  | pdfConversionFailed (filename : String)
  | convertedPage (page : Nat) (filename : String)
  deriving Repr, DecidableEq

/-- Oracles for one download batch: `dl` is
`nylas.download_attachment` (`none` = returned `None`, timed out, or the
saved path does not exist), `sizeOf` is `os.path.getsize`. -/
structure DownloadEnv where
  dl : Attachment → Option String
  sizeOf : String → Nat

/-- Result collection for one completed download future (the body of the
`for future, att, doc_type, filename in futures` loop): PDF results are fanned
out into page images, and a conversion failure falls back to the original
file as the sole descriptor. -/
def collect_download_result (pdfPages : String → Option (List Nat))
    (env : DownloadEnv) (fs : Finset String) (att : Attachment)
    (doc_type : String) : List DownloadedDoc × List LogEvent × Finset String :=
  match env.dl att with
  | none => ([], [.downloadFailed att.filename], fs)
  | some file_path =>
    let fs0 := insert file_path fs
    let file_size := env.sizeOf file_path
    if is_pdf file_path then
      match convert_pdf_to_images pdfPages fs0 file_path "png" with
      | .ok (imgs, fs1) =>
        (imgs.map (fun img =>
          { docType := doc_type
            filename := basenameOf img.path
            path := img.path
            size := img.size
            convertedFromPdf := true
            pdfPage := some img.page }),
         imgs.map (fun img => .convertedPage img.page (basenameOf img.path)),
         fs1)
      | .error _ =>
        ([{ docType := doc_type, filename := att.filename, path := file_path,
            size := file_size, convertedFromPdf := false, pdfPage := none }],
         [.pdfConversionFailed att.filename], fs0)
    else
      ([{ docType := doc_type, filename := att.filename, path := file_path,
          size := file_size, convertedFromPdf := false, pdfPage := none }],
       [.downloaded att.filename], fs0)

structure DownloadBatch where
  docs : List DownloadedDoc
  logs : List LogEvent
  submitted : List Attachment
  fs : Finset String
  deriving DecidableEq

/-- One attachment of the `download_attachments_parallel` batch:
unclassifiable filenames are skipped without submitting a download. -/
def dap_step (pdfPages : String → Option (List Nat)) (env : DownloadEnv)
    (batch : DownloadBatch) (att : Attachment) : DownloadBatch :=
  match classify_document_type att.filename with
  | none => { batch with logs := batch.logs ++ [.skipped att.filename] }
  | some doc_type =>
    let r := collect_download_result pdfPages env batch.fs att doc_type
    { docs := batch.docs ++ r.1
      logs := batch.logs ++ r.2.1
      submitted := batch.submitted ++ [att]
      fs := r.2.2 }

/-- `download_attachments_parallel`: unclassifiable attachments are skipped
without a download; the rest are submitted to the worker pool and their
results collected (the bounded pool is sequentialised here; per-attachment
failures only affect their own descriptors). -/
def download_attachments_parallel (pdfPages : String → Option (List Nat))
    (env : DownloadEnv) (fs : Finset String) (attachments : List Attachment) :
    DownloadBatch :=
  attachments.foldl (dap_step pdfPages env) ⟨[], [], [], fs⟩

/-! ### `WebhookProcessor` (`backend/services/webhook_processor.py`)

The Mongo collections become lists in `DBState`. External effects of one
`process_webhook` call sit in `WebhookEnv`: the Nylas detail fetch, the email
regex-extraction result (only its `email` field is consumed by the modelled
control flow), the download oracles, and an optional crash point standing for
an exception raised inside the `try` block after the processing marker was
written (file I/O, catalogue processing, Mongo errors). -/

structure ProcessedEntry where
  emailId : String
  status : String
  vendorId : Option String
  deriving Repr, DecidableEq

structure VendorRecord where
  vendorId : String
  vendorEmail : Option String
  source : String
  documents : List DownloadedDoc
  deriving Repr, DecidableEq

structure RejectedEntry where
  emailId : String
  reason : String
  subject : String
  issues : List String
  deriving Repr, DecidableEq

structure WebhookLogEntry where
  emailId : Option String
  status : String
  error : Option String
  deriving Repr, DecidableEq

structure DBState where
  processedEmails : List ProcessedEntry
  vendors : List VendorRecord
  rejectedEmails : List RejectedEntry
  webhookLogs : List WebhookLogEntry
  deriving Repr, DecidableEq

/-- `WebhookProcessor.log_webhook_call`: append-only audit log. -/
def log_webhook_call (st : DBState) (emailId : Option String) (status : String)
    (error : Option String) : DBState :=
  { st with webhookLogs := st.webhookLogs ++ [⟨emailId, status, error⟩] }

/-- `VendorEmailService.check_duplicate`: known event id, or a vendor record
already owning the extracted vendor email. -/
def check_duplicate (st : DBState) (email_id vendor_email : String) : Bool :=
  st.processedEmails.any (fun e => e.emailId = email_id) ||
  (vendor_email ≠ "" && st.vendors.any (fun v => v.vendorEmail = some vendor_email))

/-- The slice of `nylas.get_email_details` output the modelled control flow
reads (body-derived data enters through `WebhookEnv.extractedEmail`). -/
structure EmailDetails where
  attachments : List Attachment
  deriving Repr, DecidableEq

/-- Where an exception interrupts `_create_vendor_and_download`, if anywhere. -/
inductive CrashPoint where
  | beforeDownload
  | beforeInsert
  | afterInsert
  deriving Repr, DecidableEq

structure WebhookEnv where
  emailDetails : Option EmailDetails
  extractedEmail : Option String
  download : DownloadEnv
  crash : Option CrashPoint

/-- Webhook payload slice: `data.object.id`, `data.object.subject`,
`data.object.attachments`. -/
structure WebhookEvent where
  emailId : Option String
  subject : String
  attachments : List Attachment
  deriving Repr, DecidableEq

structure PWResult where
  status : String
  db : DBState
  fs : Finset String
  downloadsSubmitted : List Attachment

/-- The `except` handler's
`processed_emails.update_one({"email_id": ...}, {"$set": {"status": "failed", ...}}, upsert=True)`. -/
def upsert_failed (st : DBState) (email_id : String) : DBState :=
  if st.processedEmails.any (fun e => e.emailId = email_id) then
    { st with processedEmails := st.processedEmails.map (fun e =>
        if e.emailId = email_id then { e with status := "failed" } else e) }
  else
    { st with processedEmails := st.processedEmails ++ [⟨email_id, "failed", none⟩] }

/-- `WebhookProcessor._create_vendor_and_download`: vendor id from the current
vendor count + 1, parallel downloads, then the vendor record insert. -/
def _create_vendor_and_download (pdfPages : String → Option (List Nat))
    (denv : DownloadEnv) (fs : Finset String) (db : DBState) (email_id : String)
    (basicInfoEmail : Option String) (attachments : List Attachment) :
    String × DownloadBatch × DBState :=
  let vendor_email := basicInfoEmail.getD ("unknown_" ++ email_id)
  let vendor_count := db.vendors.length + 1
  let vendor_id := "VENDOR_" ++ padZeros4 vendor_count ++ "_" ++ sanitize_email vendor_email
  let batch := download_attachments_parallel pdfPages denv fs attachments
  let record : VendorRecord :=
    { vendorId := vendor_id, vendorEmail := basicInfoEmail,
      source := "webhook", documents := batch.docs }
  (vendor_id, batch, { db with vendors := db.vendors ++ [record] })

/-- `WebhookProcessor.process_webhook`: idempotency check, subject validation,
detail fetch, attachment validation, identity-level dedup, processing marker,
vendor materialisation; crashes after the marker are caught and recorded as
`failed`. -/
def process_webhook (pdfPages : String → Option (List Nat)) (env : WebhookEnv)
    (fs : Finset String) (st : DBState) (ev : WebhookEvent) : PWResult :=
  match ev.emailId with
  | none =>
    { status := "error",
      db := log_webhook_call st none "error" (some "No email_id in webhook data"),
      fs := fs, downloadsSubmitted := [] }
  | some email_id =>
    if st.processedEmails.any (fun e => e.emailId = email_id) then
      { status := "already_processed",
        db := log_webhook_call st (some email_id) "duplicate" none,
        fs := fs, downloadsSubmitted := [] }
    else if !validate_subject_valid ev.subject then
      let st1 := { st with rejectedEmails :=
        st.rejectedEmails ++ [⟨email_id, "invalid_subject", ev.subject, []⟩] }
      { status := "rejected",
        db := log_webhook_call st1 (some email_id) "rejected" (some "Invalid subject line"),
        fs := fs, downloadsSubmitted := [] }
    else
      match env.emailDetails with
      | none =>
        { status := "error",
          db := log_webhook_call st (some email_id) "error"
            (some "Failed to fetch email details from Nylas"),
          fs := fs, downloadsSubmitted := [] }
      | some details =>
        let attachments :=
          if ev.attachments.isEmpty then details.attachments else ev.attachments
        let va := validate_attachments attachments
        if !va.1 then
          let st1 := { st with rejectedEmails := st.rejectedEmails ++
            [⟨email_id, "missing_or_invalid_attachments", ev.subject, va.2⟩] }
          { status := "rejected",
            db := log_webhook_call st1 (some email_id) "rejected" (some "Invalid attachments"),
            fs := fs, downloadsSubmitted := [] }
        else
          let vendor_email := env.extractedEmail.getD ""
          if vendor_email ≠ "" && check_duplicate st email_id vendor_email then
            { status := "duplicate",
              db := log_webhook_call st (some email_id) "duplicate" none,
              fs := fs, downloadsSubmitted := [] }
          else
            let st1 := { st with processedEmails :=
              st.processedEmails ++ [⟨email_id, "processing", none⟩] }
            match env.crash with
            | some .beforeDownload =>
              { status := "error",
                db := log_webhook_call (upsert_failed st1 email_id) (some email_id)
                  "error" (some "pipeline exception"),
                fs := fs, downloadsSubmitted := [] }
            | some .beforeInsert =>
              let batch := download_attachments_parallel pdfPages env.download fs attachments
              { status := "error",
                db := log_webhook_call (upsert_failed st1 email_id) (some email_id)
                  "error" (some "pipeline exception"),
                fs := batch.fs, downloadsSubmitted := batch.submitted }
            | some .afterInsert =>
              let r := _create_vendor_and_download pdfPages env.download fs st1
                email_id env.extractedEmail attachments
              { status := "error",
                db := log_webhook_call (upsert_failed r.2.2 email_id) (some email_id)
                  "error" (some "pipeline exception"),
                fs := r.2.1.fs, downloadsSubmitted := r.2.1.submitted }
            | none =>
              let r := _create_vendor_and_download pdfPages env.download fs st1
                email_id env.extractedEmail attachments
              let db1 := r.2.2
              let completed := db1.processedEmails.map (fun e =>
                if e.emailId = email_id then
                  { e with status := "completed", vendorId := some r.1 } else e)
              let st2 := { db1 with processedEmails := completed }
              { status := "success",
                db := log_webhook_call st2 (some email_id) "success" none,
                fs := r.2.1.fs, downloadsSubmitted := r.2.1.submitted }

/-! ### Chat registration flow (`backend/routes/chat_enhanced.py`)

Stage values as used by `chat_enhanced.py` (the enhanced flow has no
per-document processing sub-states). Basic details are an association list
field-name ↦ value, mirroring the `basic_details.dict()` the route works on;
a Python `None`/missing field is an absent key, and Python truthiness of a
field is `fieldFilled`. The LLM calls are oracles in `ExtractEnv`. -/

inductive ChatStage where
  | welcome
  | collectingBasicDetails
  | aadhaarRequest
  | panRequest
  | gstRequest
  | catalogueRequest
  | awaitingConfirmation
  | confirmed
  deriving Repr, DecidableEq

structure TempDoc where
  docType : String
  filename : String
  path : String
  page : Option Nat
  convertedFromPdf : Bool
  deriving Repr, DecidableEq

structure VendorDraft where
  id : String
  sessionId : String
  chatStage : ChatStage
  basicDetails : List (String × String)
  tempDocumentPaths : List TempDoc
  isCompleted : Bool
  deriving Repr, DecidableEq

def getField (bd : List (String × String)) (f : String) : Option String :=
  (bd.find? (fun p => p.1 = f)).map (fun p => p.2)

def setField (bd : List (String × String)) (f v : String) : List (String × String) :=
  if bd.any (fun p => p.1 = f) then bd.map (fun p => if p.1 = f then (f, v) else p)
  else bd ++ [(f, v)]

/-- Python truthiness of `current_details.get(f)`. -/
def fieldFilled (bd : List (String × String)) (f : String) : Bool :=
  match getField bd f with
  | some v => v ≠ ""
  | none => false

/-- Chat-side system state: the draft store (`JSONDatabase`), the shared
`vendors` Mongo collection, and the filesystem. -/
structure SysState where
  drafts : List VendorDraft
  vendors : List VendorRecord
  fs : Finset String
  deriving DecidableEq

def get_vendor_draft_by_session (st : SysState) (session_id : String) :
    Option VendorDraft :=
  st.drafts.find? (fun d => d.sessionId = session_id)

/-- `JSONDatabase.update_vendor_draft` restricted to the field updates the
routes perform (successive `$set`-style updates are merged into one `f`). -/
def update_vendor_draft (st : SysState) (draftId : String)
    (f : VendorDraft → VendorDraft) : SysState :=
  { st with drafts := st.drafts.map (fun d => if d.id = draftId then f d else d) }

/-- `JSONDatabase.create_vendor_draft`: dict assignment keyed by draft id. -/
def create_vendor_draft (st : SysState) (draft : VendorDraft) : SysState :=
  { st with drafts := st.drafts.filter (fun d => d.id ≠ draft.id) ++ [draft] }

/-- `start_chat`: fresh draft in the `welcome` stage with empty details and
no temp documents (session/draft identifiers come from outside). -/
def start_chat (st : SysState) (draftId session_id : String) : SysState :=
  create_vendor_draft st
    { id := draftId, sessionId := session_id, chatStage := .welcome,
      basicDetails := [], tempDocumentPaths := [], isCompleted := false }

/-- `normalize_gender`. -/
def normalize_gender (raw_value : String) : Option String :=
  let normalized := (strLower raw_value).trim
  if ["m", "male", "man", "boy", "gentleman", "he", "him"].contains normalized then
    some "Male"
  else if ["f", "female", "woman", "girl", "lady", "she", "her"].contains normalized then
    some "Female"
  else none

/-- Python `str.title()`: upper-case each letter that follows a non-letter,
lower-case the rest. -/
def titleCaseGo : Bool → List Char → List Char
  | _, [] => []
  | prevAlpha, c :: t =>
    (if c.isAlpha then (if prevAlpha then c.toLower else c.toUpper) else c) ::
      titleCaseGo c.isAlpha t

def titleCase (s : String) : String := String.mk (titleCaseGo false s.data)

def designation_map : List (String × String) :=
  [("owner", "Owner"), ("proprietor", "Proprietor"), ("founder", "Founder"),
   ("co-founder", "Co-Founder"), ("cofounder", "Co-Founder"), ("ceo", "CEO"),
   ("director", "Director"), ("manager", "Manager"), ("partner", "Partner"),
   ("executive", "Executive")]

/-- `normalize_designation`: exact lookup, then substring lookup in insertion
order, else title-cased fallback. -/
def normalize_designation (raw_value : String) : String :=
  let normalized := (strLower raw_value).trim
  match designation_map.find? (fun p => p.1 = normalized) with
  | some p => p.2
  | none =>
    match designation_map.find? (fun p => strContains normalized p.1) with
    | some p => p.2
    | none => titleCase raw_value.trim

/-- `type_mapping` of `upload_document_to_temp` (keys are already
lower-cased and stripped). -/
def type_mapping (t : String) : Option String :=
  if t = "aadhar" || t = "aadhaar" || t = "adhaar" || t = "adhar" then some "aadhaar"
  else if t = "pan" then some "pan"
  else if t = "gst" || t = "gstin" then some "gst"
  else if t = "catalogue" || t = "catalog" || t = "product_list" || t = "products" then
    some "catalogue"
  else none

/-- The body of `upload_document_to_temp` after the file is saved: PDF uploads
are converted page-by-page; a conversion failure falls back to keeping the
original file as the single entry. -/
def upload_saved_files (pdfPages : String → Option (List Nat)) (fs : Finset String)
    (doc_type_value filename temp_file_path : String) :
    List TempDoc × List LogEvent × Finset String :=
  if is_pdf temp_file_path then
    match convert_pdf_to_images pdfPages fs temp_file_path "png" with
    | .ok (imgs, fs1) =>
      (imgs.map (fun img =>
        { docType := doc_type_value, filename := basenameOf img.path,
          path := img.path, page := some img.page, convertedFromPdf := true }),
       imgs.map (fun img => .convertedPage img.page (basenameOf img.path)), fs1)
    | .error _ =>
      ([{ docType := doc_type_value, filename := filename, path := temp_file_path,
          page := none, convertedFromPdf := false }],
       [.pdfConversionFailed filename], fs)
  else
    ([{ docType := doc_type_value, filename := filename, path := temp_file_path,
        page := none, convertedFromPdf := false }], [], fs)

inductive UploadOutcome where
  | invalidDocumentType
  | invalidExtension
  | sessionNotFound
  | uploaded (nextStage : ChatStage) (filesSaved : Nat) (readyForConfirmation : Bool)
  deriving Repr, DecidableEq

/-- `upload_document_to_temp`: type synonym normalisation, per-kind extension
check, session lookup, temp save + PDF fan-out, then the next stage computed
from which document kinds are now present. -/
def upload_document_to_temp (pdfPages : String → Option (List Nat)) (st : SysState)
    (session_id document_type filename : String) :
    UploadOutcome × SysState × List LogEvent :=
  let doc_type_normalized := (strLower document_type).trim
  match type_mapping doc_type_normalized with
  | none => (.invalidDocumentType, st, [])
  | some doc_type_standard =>
    let allowed_extensions :=
      if doc_type_standard = "catalogue" then [".csv"]
      else [".jpg", ".jpeg", ".png", ".pdf"]
    let file_extension := strLower (extOf filename)
    if !allowed_extensions.contains file_extension then (.invalidExtension, st, [])
    else
      match get_vendor_draft_by_session st session_id with
      | none => (.sessionNotFound, st, [])
      | some vendor_draft =>
        let temp_session_dir := "temp_uploads/" ++ session_id
        let temp_file_path := temp_session_dir ++ "/" ++ filename
        let fs0 := insert temp_file_path st.fs
        let r := upload_saved_files pdfPages fs0 doc_type_standard filename temp_file_path
        let uploaded_files := r.1
        let current_temp_docs := vendor_draft.tempDocumentPaths ++ uploaded_files
        let has_aadhaar := current_temp_docs.any (fun d => d.docType = "aadhaar")
        let has_pan := current_temp_docs.any (fun d => d.docType = "pan")
        let has_gst := current_temp_docs.any (fun d => d.docType = "gst")
        let has_catalogue := current_temp_docs.any (fun d => d.docType = "catalogue")
        let next_stage :=
          if !has_aadhaar then ChatStage.aadhaarRequest
          else if !has_pan then ChatStage.panRequest
          else if !has_gst then ChatStage.gstRequest
          else if !has_catalogue then ChatStage.catalogueRequest
          else ChatStage.awaitingConfirmation
        let st1 := update_vendor_draft { st with fs := r.2.2 } vendor_draft.id
          (fun d => { d with tempDocumentPaths := current_temp_docs,
                             chatStage := next_stage })
        (.uploaded next_stage uploaded_files.length (has_aadhaar && has_pan && has_gst),
         st1, r.2.1)

/-- `extract_basic_detail_with_llm` / edit-extraction oracle results.
An empty `field`/`newValue` is Python's `null`-or-`""` (both falsy). -/
structure EditExtract where
  field : String
  newValue : String
  understood : Bool
  deriving Repr, DecidableEq

structure ExtractEnv where
  updates : List (String × String)
  editRes : Option EditExtract

inductive SendResult where
  | sessionNotFound
  | welcomeAdvance
  | welcomeReprompt
  | askField (field : String)
  | basicComplete
  | waitingForUpload
  | confirmSuccess
  | editApplied (field : String) (newValue : String)
  | editNotUnderstood
  | editFailed
  | reviewPrompt
  | fallback
  deriving Repr, DecidableEq

def required_fields : List String :=
  ["full_name", "company_name", "designation", "age", "gender", "mobile_number",
   "email_id"]

/-- Post-extraction normalisation of the LLM updates (`send_message`,
collecting stage): gender is canonicalised or dropped, designation is
canonicalised. -/
def normalize_updates (updates : List (String × String)) : List (String × String) :=
  let u1 :=
    match getField updates "gender" with
    | some g =>
      if g ≠ "" then
        match normalize_gender g with
        | some ng => setField updates "gender" ng
        | none => updates.filter (fun p => p.1 ≠ "gender")
      else updates
    | none => updates
  match getField u1 "designation" with
  | some dsg => if dsg ≠ "" then setField u1 "designation" (normalize_designation dsg) else u1
  | none => u1

def edit_keywords : List String := ["edit", "change", "modify", "update"]

/-- `send_message`, WELCOME stage block. -/
def handle_welcome (st : SysState) (user_message : String)
    (vendor_draft : VendorDraft) : SendResult × SysState :=
  if ["yes", "yeah", "sure", "ok", "okay", "start", "begin"].any
      (fun w => strContains (strLower user_message) w) then
    (.welcomeAdvance, update_vendor_draft st vendor_draft.id
      (fun d => { d with chatStage := .collectingBasicDetails }))
  else (.welcomeReprompt, st)

/-- `send_message`, COLLECTING_BASIC_DETAILS stage block. -/
def handle_collecting (st : SysState) (env : ExtractEnv)
    (vendor_draft : VendorDraft) : SendResult × SysState :=
  let updates := normalize_updates env.updates
  let current_details :=
    updates.foldl (fun bd p => setField bd p.1 p.2) vendor_draft.basicDetails
  let st1 :=
    if env.updates.isEmpty then st
    else update_vendor_draft st vendor_draft.id
      (fun d => { d with basicDetails := current_details })
  match required_fields.find? (fun f => !fieldFilled current_details f) with
  | some missing_field => (.askField missing_field, st1)
  | none =>
    (.basicComplete, update_vendor_draft st1 vendor_draft.id
      (fun d => { d with chatStage := .aadhaarRequest }))

/-- `send_message`, AWAITING_CONFIRMATION stage block. -/
def handle_awaiting (st : SysState) (user_message : String) (env : ExtractEnv)
    (vendor_draft : VendorDraft) : SendResult × SysState :=
  let user_msg_lower := strLower user_message
  if strContains user_msg_lower "confirm" &&
      !(["edit", "change", "modify"].any (fun w => strContains user_msg_lower w)) then
    (.confirmSuccess, st)
  else if edit_keywords.any (fun w => strContains user_msg_lower w) then
    match env.editRes with
    | none => (.editFailed, st)
    | some er =>
      if er.understood && er.field ≠ "" && er.newValue ≠ "" then
        let new_value :=
          if er.field = "gender" then
            match normalize_gender er.newValue with
            | some ng => ng
            | none => er.newValue
          else if er.field = "designation" then normalize_designation er.newValue
          else er.newValue
        (.editApplied er.field new_value, update_vendor_draft st vendor_draft.id
          (fun d => { d with basicDetails := setField d.basicDetails er.field new_value }))
      else (.editNotUnderstood, st)
  else (.reviewPrompt, st)

/-- `send_message`: the staged chat message handler. -/
def send_message (st : SysState) (session_id user_message : String)
    (env : ExtractEnv) : SendResult × SysState :=
  match get_vendor_draft_by_session st session_id with
  | none => (.sessionNotFound, st)
  | some vendor_draft =>
    let current_stage := vendor_draft.chatStage
    if current_stage = .welcome then handle_welcome st user_message vendor_draft
    else if current_stage = .collectingBasicDetails then
      handle_collecting st env vendor_draft
    else if current_stage = .aadhaarRequest ∨ current_stage = .panRequest ∨
        current_stage = .gstRequest then
      (.waitingForUpload, st)
    else if current_stage = .awaitingConfirmation then
      handle_awaiting st user_message env vendor_draft
    else (.fallback, st)

inductive ConfirmResult where
  | declined
  | sessionNotFound
  | notReady
  | created (vendorId : String) (documentsCount : Nat)
  deriving Repr, DecidableEq

/-- Final filename of one moved temp document in `confirm_and_submit`. -/
def final_filename_for (temp_doc : TempDoc) : String :=
  if temp_doc.convertedFromPdf then
    temp_doc.docType ++ "_page_" ++ toString (temp_doc.page.getD 0) ++ ".png"
  else temp_doc.docType ++ extOf temp_doc.path

/-- `confirm_and_submit_vendor`: the declined short-circuit precedes the
session lookup; on confirmation with a ready draft, moves the temp files to
the vendor workspace, inserts the vendor record, marks the draft confirmed,
and deletes the session's temp area. -/
def confirm_and_submit (sizeOf : String → Nat) (st : SysState)
    (session_id : String) (confirmed : Bool) : ConfirmResult × SysState :=
  if !confirmed then (.declined, st)
  else
    match get_vendor_draft_by_session st session_id with
    | none => (.sessionNotFound, st)
    | some vendor_draft =>
      if vendor_draft.chatStage ≠ .awaitingConfirmation then (.notReady, st)
      else
        let basic_info := vendor_draft.basicDetails
        let vendor_email := (getField basic_info "email_id").getD ("unknown_" ++ session_id)
        let vendor_count := st.vendors.length + 1
        let vendor_id := "VENDOR_" ++ padZeros4 vendor_count ++ "_" ++ sanitize_email vendor_email
        let vendor_base_path := "vendors/" ++ vendor_id
        let documents_path := vendor_base_path ++ "/documents"
        let step := fun (acc : List DownloadedDoc × Finset String) (temp_doc : TempDoc) =>
          if temp_doc.path ∈ acc.2 then
            let final_filename := final_filename_for temp_doc
            let final_path := documents_path ++ "/" ++ final_filename
            (acc.1 ++ [{ docType := temp_doc.docType, filename := final_filename,
                         path := final_path, size := sizeOf final_path,
                         convertedFromPdf := temp_doc.convertedFromPdf,
                         pdfPage := temp_doc.page }],
             insert final_path (acc.2.erase temp_doc.path))
          else acc
        let moved := vendor_draft.tempDocumentPaths.foldl step ([], st.fs)
        let final_documents := moved.1
        let fs1 := insert (vendor_base_path ++ "/metadata.json")
          (insert (vendor_base_path ++ "/session_raw.json") moved.2)
        let record : VendorRecord :=
          { vendorId := vendor_id, vendorEmail := getField basic_info "email_id",
            source := "chatbot", documents := final_documents }
        let st1 := { st with vendors := st.vendors ++ [record], fs := fs1 }
        let st2 := update_vendor_draft st1 vendor_draft.id
          (fun d => { d with chatStage := .confirmed, isCompleted := true })
        let temp_dir_pref := "temp_uploads/" ++ session_id ++ "/"
        let fs2 := st2.fs.filter (fun p => !(temp_dir_pref.data.isPrefixOf p.data))
        let st3 := { st2 with fs := fs2 }
        (.created vendor_id final_documents.length, st3)

/-- States reachable through the chat operations from an empty system. -/
inductive Reachable : SysState → Prop where
  | init : Reachable ⟨[], [], ∅⟩
  | start (st : SysState) (draftId session_id : String) :
      Reachable st → Reachable (start_chat st draftId session_id)
  | message (st : SysState) (session_id msg : String) (env : ExtractEnv) :
      Reachable st → Reachable (send_message st session_id msg env).2
  | upload (st : SysState) (pdfPages : String → Option (List Nat))
      (session_id document_type filename : String) :
      Reachable st → Reachable (upload_document_to_temp pdfPages st session_id
        document_type filename).2.1
  | confirm (st : SysState) (sizeOf : String → Nat) (session_id : String)
      (confirmed : Bool) :
      Reachable st → Reachable (confirm_and_submit sizeOf st session_id confirmed).2

/-! ### Spec-facing predicates and concrete oracles used in the statements -/

/-- An attachment that the `validate_attachments` loop records under keyword
test `kw`: not catalogue-matching, valid PDF/image extension, keyword hit. -/
def attContributes (kw : String → Bool) (a : Attachment) : Bool :=
  !catalogueKeyword (strLower a.filename) &&
    (validPdfImageExt (strLower a.filename) && kw (strLower a.filename))

/-- An attachment that the `validate_attachments` loop passes without issue. -/
def attNoIssue (a : Attachment) : Bool :=
  if catalogueKeyword (strLower a.filename) then strEndsWith (strLower a.filename) ".csv"
  else validPdfImageExt (strLower a.filename)

/-- Spec side of C4: each mandatory kind is matched by some attachment whose
filename contains the kind's keyword and whose extension is PDF/JPG/JPEG/PNG. -/
def mandatoryKindsMatched (atts : List Attachment) : Bool :=
  (atts.any (fun a => aadharKeyword (strLower a.filename) &&
      validPdfImageExt (strLower a.filename))) &&
  ((atts.any (fun a => strContains (strLower a.filename) "pan" &&
      validPdfImageExt (strLower a.filename))) &&
   (atts.any (fun a => strContains (strLower a.filename) "gst" &&
      validPdfImageExt (strLower a.filename))))

/-- Spec side of C4: every attachment matching the catalogue keyword set has
a `.csv` extension. -/
def catalogueAttachmentsAreCsv (atts : List Attachment) : Bool :=
  atts.all (fun a => !catalogueKeyword (strLower a.filename) ||
    strEndsWith (strLower a.filename) ".csv")

/-- The condition the code additionally enforces and C4 omits: every
non-catalogue attachment has a valid PDF/image extension. -/
def nonCatalogueAttachmentsHaveValidExt (atts : List Attachment) : Bool :=
  atts.all (fun a => catalogueKeyword (strLower a.filename) ||
    validPdfImageExt (strLower a.filename))

/-- C2's invariant on one draft: in `awaiting_confirmation`, the uploaded
temp-document kinds include all three mandatory kinds. -/
def draftDocKindsComplete (d : VendorDraft) : Prop :=
  d.chatStage = .awaitingConfirmation →
    (d.tempDocumentPaths.any (fun t => t.docType = "aadhaar") = true ∧
     d.tempDocumentPaths.any (fun t => t.docType = "pan") = true ∧
     d.tempDocumentPaths.any (fun t => t.docType = "gst") = true)

/-- Rendering oracle under which every PDF conversion fails. -/
def noPdfOracle : String → Option (List Nat) := fun _ => none

def zeroSize : String → Nat := fun _ => 0

def trivialDownloadEnv : DownloadEnv := ⟨fun _ => none, zeroSize⟩

def trivialWebhookEnv : WebhookEnv :=
  { emailDetails := none, extractedEmail := none,
    download := trivialDownloadEnv, crash := none }

/-- Download oracle that always saves to the same concrete path. -/
def constDownloadEnv : DownloadEnv := ⟨fun _ => some "vendors/v1/documents/aadhar.pdf", zeroSize⟩

/-- A draft sitting in `awaiting_confirmation` with all mandatory uploads. -/
def sampleAwaitingDraft : VendorDraft :=
  { id := "d1", sessionId := "s1", chatStage := .awaitingConfirmation,
    basicDetails := [("full_name", "Ankit Kumar"), ("email_id", "ankit@gmail.com")],
    tempDocumentPaths :=
      [⟨"aadhaar", "a.jpg", "temp_uploads/s1/a.jpg", none, false⟩,
       ⟨"pan", "p.jpg", "temp_uploads/s1/p.jpg", none, false⟩,
       ⟨"gst", "g.jpg", "temp_uploads/s1/g.jpg", none, false⟩,
       ⟨"catalogue", "c.csv", "temp_uploads/s1/c.csv", none, false⟩],
    isCompleted := false }

def sampleAwaitingState : SysState := ⟨[sampleAwaitingDraft], [], ∅⟩

/-- Rendering oracle with one known three-page PDF. -/
def threePagePdfOracle : String → Option (List Nat) :=
  fun p => if p = "up/aadhar.pdf" then some [10, 20, 30] else none

def threePageFs : Finset String := {"up/aadhar.pdf"}

/-- A processed-emails log already holding event `m1`. -/
def processedSt : DBState :=
  ⟨[⟨"m1", "completed", some "VENDOR_0001_x"⟩], [], [], []⟩

def dupEvent : WebhookEvent := ⟨some "m1", "VENDOR REGISTRATION - Acme", []⟩

def badSubjectEvent : WebhookEvent := ⟨some "m1", "hello there", []⟩

def freshBadSubjectEvent : WebhookEvent := ⟨some "m2", "hello there", []⟩

/-! ## Supporting lemmas -/

theorem strEndsWith_excl (s a b : String)
    (hlen : a.data.length ≤ b.data.length)
    (hab : a.data.reverse.isPrefixOf b.data.reverse = false) :
    ¬(strEndsWith s a = true ∧ strEndsWith s b = true) := by
  rintro ⟨ha, hb⟩
  unfold strEndsWith at ha hb
  rw [List.isPrefixOf_iff_prefix] at ha hb
  have h := List.prefix_of_prefix_length_le ha hb (by simpa using hlen)
  rw [← List.isPrefixOf_iff_prefix, hab] at h
  exact Bool.noConfusion h

/-- A `.csv` filename never has one of the PDF/image extensions. -/
theorem csv_excl_pdfimage (s : String) (h : strEndsWith s ".csv" = true) :
    validPdfImageExt s = false := by
  have h1 : strEndsWith s ".pdf" = false := by
    cases hx : strEndsWith s ".pdf"
    · rfl
    · exact absurd ⟨hx, h⟩ (strEndsWith_excl s ".pdf" ".csv" (by decide) (by decide))
  have h2 : strEndsWith s ".jpg" = false := by
    cases hx : strEndsWith s ".jpg"
    · rfl
    · exact absurd ⟨hx, h⟩ (strEndsWith_excl s ".jpg" ".csv" (by decide) (by decide))
  have h3 : strEndsWith s ".jpeg" = false := by
    cases hx : strEndsWith s ".jpeg"
    · rfl
    · exact absurd ⟨h, hx⟩ (strEndsWith_excl s ".csv" ".jpeg" (by decide) (by decide))
  have h4 : strEndsWith s ".png" = false := by
    cases hx : strEndsWith s ".png"
    · rfl
    · exact absurd ⟨hx, h⟩ (strEndsWith_excl s ".png" ".csv" (by decide) (by decide))
  simp [validPdfImageExt, h1, h2, h3, h4]

theorem va_step_found (acc : VAcc) (a : Attachment) :
    ((va_step acc a).foundAadhar = (acc.foundAadhar || attContributes aadharKeyword a)) ∧
    ((va_step acc a).foundPan =
      (acc.foundPan || attContributes (fun fl => strContains fl "pan") a)) ∧
    ((va_step acc a).foundGst =
      (acc.foundGst || attContributes (fun fl => strContains fl "gst") a)) := by
  unfold va_step attContributes
  cases h1 : catalogueKeyword (strLower a.filename) <;>
    cases h2 : strEndsWith (strLower a.filename) ".csv" <;>
      cases h3 : validPdfImageExt (strLower a.filename) <;>
        simp [h1, h2, h3]

theorem va_step_issues (acc : VAcc) (a : Attachment) :
    (va_step acc a).issues.isEmpty = (acc.issues.isEmpty && attNoIssue a) := by
  unfold va_step attNoIssue
  cases h1 : catalogueKeyword (strLower a.filename) <;>
    cases h2 : strEndsWith (strLower a.filename) ".csv" <;>
      cases h3 : validPdfImageExt (strLower a.filename) <;>
        simp [h1, h2, h3]

theorem va_fold_spec (atts : List Attachment) : ∀ acc : VAcc,
    ((atts.foldl va_step acc).issues.isEmpty
        = (acc.issues.isEmpty && atts.all attNoIssue)) ∧
    ((atts.foldl va_step acc).foundAadhar
        = (acc.foundAadhar || atts.any (attContributes aadharKeyword))) ∧
    ((atts.foldl va_step acc).foundPan
        = (acc.foundPan || atts.any (attContributes (fun fl => strContains fl "pan")))) ∧
    ((atts.foldl va_step acc).foundGst
        = (acc.foundGst || atts.any (attContributes (fun fl => strContains fl "gst")))) := by
  induction atts with
  | nil => intro acc; simp
  | cons a t ih =>
    intro acc
    obtain ⟨e1, e2, e3, e4⟩ := ih (va_step acc a)
    obtain ⟨f2, f3, f4⟩ := va_step_found acc a
    simp only [List.foldl_cons, List.any_cons, List.all_cons, e1, e2, e3, e4,
      va_step_issues, f2, f3, f4, Bool.or_assoc, Bool.and_assoc]
    exact ⟨trivial, trivial, trivial, trivial⟩

theorem allNoIssue_iff (atts : List Attachment) :
    atts.all attNoIssue = true ↔
      (catalogueAttachmentsAreCsv atts = true ∧
       nonCatalogueAttachmentsHaveValidExt atts = true) := by
  unfold catalogueAttachmentsAreCsv nonCatalogueAttachmentsHaveValidExt
  simp only [List.all_eq_true]
  constructor
  · intro h
    refine ⟨fun a ha => ?_, fun a ha => ?_⟩ <;>
      · have := h a ha
        unfold attNoIssue at this
        cases hc : catalogueKeyword (strLower a.filename) <;>
          · simp [hc] at this ⊢
            all_goals simp [this]
  · rintro ⟨hB, hC⟩ a ha
    have hb := hB a ha
    have hc := hC a ha
    unfold attNoIssue
    cases hcat : catalogueKeyword (strLower a.filename) <;>
      · simp [hcat] at hb hc ⊢
        all_goals simp [hb, hc]

theorem contrib_any_of_claim (atts : List Attachment) (kw : String → Bool)
    (hB : catalogueAttachmentsAreCsv atts = true)
    (h : atts.any (fun a => kw (strLower a.filename) &&
      validPdfImageExt (strLower a.filename)) = true) :
    atts.any (attContributes kw) = true := by
  simp only [List.any_eq_true, Bool.and_eq_true] at h ⊢
  obtain ⟨a, ha, hkw, hext⟩ := h
  refine ⟨a, ha, ?_⟩
  unfold attContributes
  have hnotcat : catalogueKeyword (strLower a.filename) = false := by
    cases hc : catalogueKeyword (strLower a.filename)
    · rfl
    · unfold catalogueAttachmentsAreCsv at hB
      simp only [List.all_eq_true] at hB
      have := hB a ha
      simp [hc] at this
      rw [csv_excl_pdfimage _ this] at hext
      exact Bool.noConfusion hext
  simp [hnotcat, hkw, hext]

theorem claim_any_of_contrib (atts : List Attachment) (kw : String → Bool)
    (h : atts.any (attContributes kw) = true) :
    atts.any (fun a => kw (strLower a.filename) &&
      validPdfImageExt (strLower a.filename)) = true := by
  simp only [List.any_eq_true] at h ⊢
  obtain ⟨a, ha, hc⟩ := h
  unfold attContributes at hc
  simp only [Bool.and_eq_true] at hc
  exact ⟨a, ha, by simp [hc.2.1, hc.2.2]⟩

/-- Closed form of `(validate_attachments atts).1`. -/
theorem validate_attachments_fst (atts : List Attachment) :
    (validate_attachments atts).1 =
      (atts.all attNoIssue &&
        (atts.any (attContributes aadharKeyword) &&
          (atts.any (attContributes (fun fl => strContains fl "pan")) &&
           atts.any (attContributes (fun fl => strContains fl "gst"))))) := by
  obtain ⟨e1, e2, e3, e4⟩ := va_fold_spec atts ⟨[], false, false, false, false⟩
  simp only [List.isEmpty_nil, Bool.true_and, Bool.false_or] at e1 e2 e3 e4
  simp only [validate_attachments, e2, e3, e4]
  cases hA : atts.any (attContributes aadharKeyword) <;>
    cases hP : atts.any (attContributes (fun fl => strContains fl "pan")) <;>
      cases hG : atts.any (attContributes (fun fl => strContains fl "gst")) <;>
        simp [e1]

/-- One attachment of the `download_attachments_parallel` loop is submitted
for download only if its filename classifies to a document kind. -/
theorem dap_submitted_classified (pdfPages : String → Option (List Nat))
    (env : DownloadEnv) (atts : List Attachment) : ∀ b : DownloadBatch,
    (∀ a ∈ b.submitted, classify_document_type a.filename ≠ none) →
    ∀ a ∈ (atts.foldl (dap_step pdfPages env) b).submitted,
      classify_document_type a.filename ≠ none := by
  induction atts with
  | nil => intro b hb; exact hb
  | cons x xs ih =>
    intro b hb
    simp only [List.foldl_cons]
    apply ih
    intro a ha
    unfold dap_step at ha
    cases hc : classify_document_type x.filename with
    | none =>
      rw [hc] at ha
      exact hb a ha
    | some t =>
      rw [hc] at ha
      simp only [List.mem_append, List.mem_singleton] at ha
      rcases ha with h | rfl
      · exact hb a h
      · simp [hc]

@[simp]
theorem log_webhook_call_processedEmails (st : DBState) (a : Option String)
    (b : String) (c : Option String) :
    (log_webhook_call st a b c).processedEmails = st.processedEmails := rfl

@[simp]
theorem log_webhook_call_vendors (st : DBState) (a : Option String) (b : String)
    (c : Option String) : (log_webhook_call st a b c).vendors = st.vendors := rfl

@[simp]
theorem log_webhook_call_rejectedEmails (st : DBState) (a : Option String)
    (b : String) (c : Option String) :
    (log_webhook_call st a b c).rejectedEmails = st.rejectedEmails := rfl

@[simp]
theorem upsert_failed_vendors (st : DBState) (i : String) :
    (upsert_failed st i).vendors = st.vendors := by
  unfold upsert_failed
  split <;> rfl

/-- Mapping entries without changing their `emailId` preserves the
`email_id` membership test. -/
theorem any_emailId_map (l : List ProcessedEntry) (i : String)
    (f : ProcessedEntry → ProcessedEntry) (hf : ∀ e, (f e).emailId = e.emailId) :
    ((l.map f).any (fun e => e.emailId = i)) = l.any (fun e => e.emailId = i) := by
  rw [List.any_map]
  congr 1
  funext e
  simp [Function.comp, hf e]

/-- After the `failed` upsert, the event id is present in the log. -/
theorem upsert_failed_has (st : DBState) (i : String) :
    (upsert_failed st i).processedEmails.any (fun e => e.emailId = i) = true := by
  unfold upsert_failed
  split
  · rename_i h
    rw [any_emailId_map]
    · exact h
    · intro e
      by_cases he : e.emailId = i <;> simp [he]
  · simp

/-- Any single `process_webhook` call inserts at most one vendor record. -/
theorem process_webhook_le (pdfPages : String → Option (List Nat))
    (env : WebhookEnv) (fs : Finset String) (st : DBState) (ev : WebhookEvent) :
    (process_webhook pdfPages env fs st ev).db.vendors.length ≤
      st.vendors.length + 1 := by
  unfold process_webhook
  cases hE : ev.emailId with
  | none => simp
  | some i =>
    dsimp only
    repeat' split
    all_goals simp [_create_vendor_and_download]

/-- Marking an entry completed does not change which event ids are present. -/
theorem completed_any (l : List ProcessedEntry) (i : String) (vid : Option String) :
    ((l.map (fun e => if e.emailId = i then
        { e with status := "completed", vendorId := vid } else e)).any
      (fun e => e.emailId = i)) = l.any (fun e => e.emailId = i) := by
  apply any_emailId_map
  intro e
  by_cases he : e.emailId = i <;> simp [he]

/-- Each `process_webhook` call either leaves the vendors collection unchanged
or has recorded the event id in the processed-emails log. -/
theorem process_webhook_cases (pdfPages : String → Option (List Nat))
    (env : WebhookEnv) (fs : Finset String) (st : DBState) (ev : WebhookEvent)
    (i : String) (hE : ev.emailId = some i) :
    (process_webhook pdfPages env fs st ev).db.vendors = st.vendors ∨
    (process_webhook pdfPages env fs st ev).db.processedEmails.any
      (fun e => e.emailId = i) = true := by
  unfold process_webhook
  rw [hE]
  dsimp only
  repeat' split
  all_goals try (left; rfl)
  all_goals try (left; simp; done)
  all_goals try (right; simp [upsert_failed_has]; done)
  all_goals
    right
    simp [completed_any, _create_vendor_and_download]

/-- Step 1 of `process_webhook`: a known event id short-circuits to
`already_processed` with no further work. -/
theorem process_webhook_already_aux (pdfPages : String → Option (List Nat))
    (env : WebhookEnv) (fs : Finset String) (st : DBState) (ev : WebhookEvent)
    (i : String) (hE : ev.emailId = some i)
    (hP : st.processedEmails.any (fun e => e.emailId = i) = true) :
    (process_webhook pdfPages env fs st ev).status = "already_processed" ∧
    (process_webhook pdfPages env fs st ev).db.processedEmails = st.processedEmails ∧
    (process_webhook pdfPages env fs st ev).db.vendors = st.vendors ∧
    (process_webhook pdfPages env fs st ev).db.rejectedEmails = st.rejectedEmails ∧
    (process_webhook pdfPages env fs st ev).downloadsSubmitted = [] := by
  unfold process_webhook
  rw [hE]
  dsimp only
  rw [if_pos hP]
  exact ⟨rfl, rfl, rfl, rfl, rfl⟩

/-- `update_vendor_draft` preserves a per-draft invariant that the update
function preserves. -/
theorem update_vendor_draft_mem {P : VendorDraft → Prop} (st : SysState)
    (draftId : String) (f : VendorDraft → VendorDraft)
    (hf : ∀ d, P d → P (f d))
    (h : ∀ d ∈ st.drafts, P d) :
    ∀ d ∈ (update_vendor_draft st draftId f).drafts, P d := by
  intro d hd
  simp only [update_vendor_draft, List.mem_map] at hd
  obtain ⟨d0, hd0, rfl⟩ := hd
  split
  · exact hf d0 (h d0 hd0)
  · exact h d0 hd0


theorem handle_welcome_inv (st : SysState) (m : String) (v : VendorDraft)
    (ih : ∀ d ∈ st.drafts, draftDocKindsComplete d) :
    ∀ d ∈ (handle_welcome st m v).2.drafts, draftDocKindsComplete d := by
  simp only [handle_welcome]
  split
  · dsimp only
    exact update_vendor_draft_mem _ _ _ (fun d _ hc => by simp at hc) ih
  · exact ih

theorem handle_collecting_inv (st : SysState) (env : ExtractEnv) (v : VendorDraft)
    (ih : ∀ d ∈ st.drafts, draftDocKindsComplete d) :
    ∀ d ∈ (handle_collecting st env v).2.drafts, draftDocKindsComplete d := by
  simp only [handle_collecting]
  repeat' split
  all_goals try dsimp only
  all_goals first
    | exact ih
    | exact update_vendor_draft_mem _ _ _ (fun d hPd => hPd) ih
    | exact update_vendor_draft_mem _ _ _ (fun d _ hc => by simp at hc) ih
    | exact update_vendor_draft_mem _ _ _ (fun d _ hc => by simp at hc)
        (update_vendor_draft_mem _ _ _ (fun d hPd => hPd) ih)

theorem handle_awaiting_inv (st : SysState) (m : String) (env : ExtractEnv)
    (v : VendorDraft) (ih : ∀ d ∈ st.drafts, draftDocKindsComplete d) :
    ∀ d ∈ (handle_awaiting st m env v).2.drafts, draftDocKindsComplete d := by
  simp only [handle_awaiting]
  repeat' split
  all_goals try dsimp only
  all_goals first
    | exact ih
    | exact update_vendor_draft_mem _ _ _ (fun d hPd => hPd) ih

theorem send_message_drafts_inv (st : SysState) (sid m : String) (env : ExtractEnv)
    (ih : ∀ d ∈ st.drafts, draftDocKindsComplete d) :
    ∀ d ∈ (send_message st sid m env).2.drafts, draftDocKindsComplete d := by
  simp only [send_message]
  repeat' split
  all_goals try dsimp only
  all_goals first
    | exact ih
    | exact handle_welcome_inv _ _ _ ih
    | exact handle_collecting_inv _ _ _ ih
    | exact handle_awaiting_inv _ _ _ _ ih

theorem bnot_ne (b : Bool) (h : ¬(!b) = true) : b = true := by
  cases b
  · exact absurd rfl h
  · rfl

theorem upload_drafts_inv (pdfPages : String → Option (List Nat)) (st : SysState)
    (sid dt fn : String) (ih : ∀ d ∈ st.drafts, draftDocKindsComplete d) :
    ∀ d ∈ (upload_document_to_temp pdfPages st sid dt fn).2.1.drafts,
      draftDocKindsComplete d := by
  simp only [upload_document_to_temp]
  repeat' split
  all_goals try dsimp only
  all_goals try exact ih
  all_goals
    refine update_vendor_draft_mem _ _ _ ?_ ih
    intro d hPd hc
    dsimp only at hc
    first
      | exact absurd hc (by decide)
      | (rename_i hA hP hG hC
         exact ⟨bnot_ne _ hA, bnot_ne _ hP, bnot_ne _ hG⟩)

theorem confirm_drafts_inv (sizeOf : String → Nat) (st : SysState) (sid : String)
    (confirmed : Bool) (ih : ∀ d ∈ st.drafts, draftDocKindsComplete d) :
    ∀ d ∈ (confirm_and_submit sizeOf st sid confirmed).2.drafts,
      draftDocKindsComplete d := by
  simp only [confirm_and_submit]
  repeat' split
  all_goals try dsimp only
  all_goals try exact ih
  exact update_vendor_draft_mem _ _ _ (fun d _ hc => by simp at hc) ih

/-! ## Claim theorems -/

/-- **C4** (corrected) — counterexample to the claim as stated: in
`[aadhar.pdf, pan.jpg, gst.png, notes.txt]` every mandatory kind is matched by
a keyword-bearing attachment with a PDF/image extension and there is no
catalogue-keyword attachment at all, so the claim's iff demands `valid`; yet
`validate_attachments` rejects the list, because the code also flags any
non-catalogue attachment with an invalid extension (`notes.txt`). -/
theorem validate_attachments_claim_counterexample :
    mandatoryKindsMatched
      [⟨"aadhar.pdf", "a1"⟩, ⟨"pan.jpg", "a2"⟩, ⟨"gst.png", "a3"⟩, ⟨"notes.txt", "a4"⟩] = true ∧
    catalogueAttachmentsAreCsv
      [⟨"aadhar.pdf", "a1"⟩, ⟨"pan.jpg", "a2"⟩, ⟨"gst.png", "a3"⟩, ⟨"notes.txt", "a4"⟩] = true ∧
    (validate_attachments
      [⟨"aadhar.pdf", "a1"⟩, ⟨"pan.jpg", "a2"⟩, ⟨"gst.png", "a3"⟩, ⟨"notes.txt", "a4"⟩]).1 = false := by
  decide

/-- **C4** (amended): `validate_attachments` returns valid (empty issues list)
iff each mandatory kind — aadhar (either spelling), pan, gst — is matched by an
attachment whose filename contains the kind's keyword and whose extension is
.pdf/.jpg/.jpeg/.png, every catalogue-keyword attachment has a .csv extension,
and additionally every non-catalogue attachment has a valid PDF/image
extension (the condition the original claim omitted); a catalogue attachment
itself remains optional. -/
theorem validate_attachments_valid_iff (atts : List Attachment) :
    (validate_attachments atts).1 = true ↔
      (mandatoryKindsMatched atts = true ∧ catalogueAttachmentsAreCsv atts = true ∧
       nonCatalogueAttachmentsHaveValidExt atts = true) := by
  rw [validate_attachments_fst]
  simp only [Bool.and_eq_true]
  constructor
  · rintro ⟨hAll, hA, hP, hG⟩
    obtain ⟨hB, hC⟩ := (allNoIssue_iff atts).mp hAll
    refine ⟨?_, hB, hC⟩
    unfold mandatoryKindsMatched
    simp only [Bool.and_eq_true]
    exact ⟨claim_any_of_contrib _ _ hA, claim_any_of_contrib _ _ hP,
      claim_any_of_contrib _ _ hG⟩
  · rintro ⟨hM, hB, hC⟩
    unfold mandatoryKindsMatched at hM
    simp only [Bool.and_eq_true] at hM
    obtain ⟨m1, m2, m3⟩ := hM
    exact ⟨(allNoIssue_iff atts).mpr ⟨hB, hC⟩, contrib_any_of_claim _ _ hB m1,
      contrib_any_of_claim _ _ hB m2, contrib_any_of_claim _ _ hB m3⟩

/-- **C10**: `classify_document_type` is total with the fixed priority
catalogue (csv + keyword) > aadhar > pan > gst, returns `none` when no keyword
set matches, and `download_attachments_parallel` never submits a download for
an attachment that classifies to `none`. -/
theorem classify_document_type_priority (filename : String)
    (pdfPages : String → Option (List Nat)) (env : DownloadEnv)
    (fs : Finset String) (atts : List Attachment) :
    ((strEndsWith (strLower filename) ".csv" &&
        (strContains (strLower filename) "catalogue" ||
         strContains (strLower filename) "catalog" ||
         strContains (strLower filename) "product" ||
         strContains (strLower filename) "inventory")) = true →
      classify_document_type filename = some "catalogue") ∧
    ((strEndsWith (strLower filename) ".csv" &&
        (strContains (strLower filename) "catalogue" ||
         strContains (strLower filename) "catalog" ||
         strContains (strLower filename) "product" ||
         strContains (strLower filename) "inventory")) = false →
      (aadharKeyword (strLower filename) = true →
        classify_document_type filename = some "aadhar") ∧
      (aadharKeyword (strLower filename) = false →
        (strContains (strLower filename) "pan" = true →
          classify_document_type filename = some "pan") ∧
        (strContains (strLower filename) "pan" = false →
          (strContains (strLower filename) "gst" = true →
            classify_document_type filename = some "gst") ∧
          (strContains (strLower filename) "gst" = false →
            classify_document_type filename = none)))) ∧
    (∀ a ∈ (download_attachments_parallel pdfPages env fs atts).submitted,
      classify_document_type a.filename ≠ none) := by
  refine ⟨?_, ?_, ?_⟩
  · intro h
    simp [classify_document_type, h]
  · intro h
    refine ⟨fun ha => by simp [classify_document_type, h, ha], fun ha => ?_⟩
    refine ⟨fun hp => by simp [classify_document_type, h, ha, hp], fun hp => ?_⟩
    exact ⟨fun hg => by simp [classify_document_type, h, ha, hp, hg],
      fun hg => by simp [classify_document_type, h, ha, hp, hg]⟩
  · exact dap_submitted_classified pdfPages env atts ⟨[], [], [], fs⟩ (by simp)

/-- **C10** witness: the priority theorem evaluated at concrete filenames. -/
theorem classify_document_type_priority_witness :
    classify_document_type "product_catalogue.csv" = some "catalogue" ∧
    classify_document_type "aadhar_pan_gst.pdf" = some "aadhar" ∧
    classify_document_type "pan_gst.jpg" = some "pan" ∧
    classify_document_type "gst_certificate.pdf" = some "gst" ∧
    classify_document_type "random.txt" = none :=
  ⟨(classify_document_type_priority "product_catalogue.csv" noPdfOracle
      trivialDownloadEnv ∅ []).1 (by decide),
   ((classify_document_type_priority "aadhar_pan_gst.pdf" noPdfOracle
      trivialDownloadEnv ∅ []).2.1 (by decide)).1 (by decide),
   (((classify_document_type_priority "pan_gst.jpg" noPdfOracle
      trivialDownloadEnv ∅ []).2.1 (by decide)).2 (by decide)).1 (by decide),
   ((((classify_document_type_priority "gst_certificate.pdf" noPdfOracle
      trivialDownloadEnv ∅ []).2.1 (by decide)).2 (by decide)).2 (by decide)).1 (by decide),
   ((((classify_document_type_priority "random.txt" noPdfOracle
      trivialDownloadEnv ∅ []).2.1 (by decide)).2 (by decide)).2 (by decide)).2 (by decide)⟩

/-- **C5**: converting an existing PDF whose renderer yields `sizes` produces
exactly `sizes.length` page descriptors with page indices 1..n in order, named
`{base}.{ext}` for a single page and `{base}_page_{k}.{ext}` otherwise, each
carrying the output path, page index, and byte size; afterwards the original
PDF path is no longer in the filesystem. -/
theorem convert_pdf_to_images_page_fanout
    (pdfPages : String → Option (List Nat)) (fs : Finset String)
    (pdf_path output_format : String) (sizes : List Nat)
    (hfs : pdf_path ∈ fs) (hp : pdfPages pdf_path = some sizes) :
    ∃ imgs fs',
      convert_pdf_to_images pdfPages fs pdf_path output_format = .ok (imgs, fs') ∧
      imgs.length = sizes.length ∧
      (∀ k, k < sizes.length →
        imgs[k]? = some
          { path := dirOf pdf_path ++
              (if sizes.length = 1 then
                stemOf pdf_path ++ "." ++ pdf_output_format output_format
               else
                stemOf pdf_path ++ "_page_" ++ toString (k + 1) ++ "." ++
                  pdf_output_format output_format)
            page := k + 1
            size := sizes.getD k 0
            originalPdf := pdf_path
            format := pdf_output_format output_format }) ∧
      pdf_path ∉ fs' := by
  unfold convert_pdf_to_images
  rw [if_neg (not_not_intro hfs), hp]
  refine ⟨_, _, rfl, by simp, ?_, ?_⟩
  · intro k hk
    simp [List.getElem?_map, List.getElem?_range, hk]
  · exact Finset.not_mem_erase _ _

/-- **C5** witness: a three-page PDF fans out to pages 1..3 and the source
file is gone afterwards. -/
theorem convert_pdf_to_images_page_fanout_witness :
    "up/aadhar.pdf" ∈ threePageFs ∧
    threePagePdfOracle "up/aadhar.pdf" = some [10, 20, 30] ∧
    (∃ imgs fs',
      convert_pdf_to_images threePagePdfOracle threePageFs "up/aadhar.pdf" "png" =
        .ok (imgs, fs') ∧
      imgs.length = ([10, 20, 30] : List Nat).length ∧
      (∀ k, k < ([10, 20, 30] : List Nat).length →
        imgs[k]? = some
          { path := dirOf "up/aadhar.pdf" ++
              (if ([10, 20, 30] : List Nat).length = 1 then
                stemOf "up/aadhar.pdf" ++ "." ++ pdf_output_format "png"
               else
                stemOf "up/aadhar.pdf" ++ "_page_" ++ toString (k + 1) ++ "." ++
                  pdf_output_format "png")
            page := k + 1
            size := ([10, 20, 30] : List Nat).getD k 0
            originalPdf := "up/aadhar.pdf"
            format := pdf_output_format "png" }) ∧
      "up/aadhar.pdf" ∉ fs') :=
  ⟨by decide, by decide,
   convert_pdf_to_images_page_fanout threePagePdfOracle threePageFs
     "up/aadhar.pdf" "png" [10, 20, 30] (by decide) (by decide)⟩

/-- **C6**: when PDF conversion fails, neither the chat upload path
(`upload_document_to_temp`, via `upload_saved_files`) nor the webhook
download path (`download_attachments_parallel`, via `collect_download_result`)
propagates the error: each keeps the original source file, records it as the
sole document descriptor for that file, and logs the conversion failure. -/
theorem pdf_conversion_failure_fallback
    (pdfPages : String → Option (List Nat)) (fs fs2 : Finset String)
    (doc_type doc_type2 filename temp_file_path : String) (env : DownloadEnv)
    (att : Attachment) (path e1 e2 : String)
    (hpdf1 : is_pdf temp_file_path = true)
    (hconv1 : convert_pdf_to_images pdfPages fs temp_file_path "png" = .error e1)
    (hdl : env.dl att = some path)
    (hpdf2 : is_pdf path = true)
    (hconv2 : convert_pdf_to_images pdfPages (insert path fs2) path "png" = .error e2) :
    (upload_saved_files pdfPages fs doc_type filename temp_file_path =
      ([{ docType := doc_type, filename := filename, path := temp_file_path,
          page := none, convertedFromPdf := false }],
       [.pdfConversionFailed filename], fs)) ∧
    (collect_download_result pdfPages env fs2 att doc_type2 =
      ([{ docType := doc_type2, filename := att.filename, path := path,
          size := env.sizeOf path, convertedFromPdf := false, pdfPage := none }],
       [.pdfConversionFailed att.filename], insert path fs2)) ∧
    path ∈ (collect_download_result pdfPages env fs2 att doc_type2).2.2 := by
  have h1 : upload_saved_files pdfPages fs doc_type filename temp_file_path =
      ([{ docType := doc_type, filename := filename, path := temp_file_path,
          page := none, convertedFromPdf := false }],
       [.pdfConversionFailed filename], fs) := by
    simp [upload_saved_files, hpdf1, hconv1]
  have h2 : collect_download_result pdfPages env fs2 att doc_type2 =
      ([{ docType := doc_type2, filename := att.filename, path := path,
          size := env.sizeOf path, convertedFromPdf := false, pdfPage := none }],
       [.pdfConversionFailed att.filename], insert path fs2) := by
    simp [collect_download_result, hdl, hpdf2, hconv2]
  exact ⟨h1, h2, by rw [h2]; exact Finset.mem_insert_self _ _⟩

/-- **C6** witness: a failing renderer at concrete inputs — the chat upload
and a webhook download both fall back to the original file. -/
theorem pdf_conversion_failure_fallback_witness :
    is_pdf "temp_uploads/s1/a.pdf" = true ∧
    is_pdf "vendors/v1/documents/aadhar.pdf" = true ∧
    constDownloadEnv.dl ⟨"aadhar.pdf", "a1"⟩ = some "vendors/v1/documents/aadhar.pdf" ∧
    (upload_saved_files noPdfOracle {"temp_uploads/s1/a.pdf"} "aadhaar" "a.pdf"
        "temp_uploads/s1/a.pdf" =
      ([{ docType := "aadhaar", filename := "a.pdf", path := "temp_uploads/s1/a.pdf",
          page := none, convertedFromPdf := false }],
       [.pdfConversionFailed "a.pdf"], {"temp_uploads/s1/a.pdf"})) ∧
    (collect_download_result noPdfOracle constDownloadEnv ∅ ⟨"aadhar.pdf", "a1"⟩ "aadhar" =
      ([{ docType := "aadhar", filename := "aadhar.pdf",
          path := "vendors/v1/documents/aadhar.pdf",
          size := constDownloadEnv.sizeOf "vendors/v1/documents/aadhar.pdf",
          convertedFromPdf := false, pdfPage := none }],
       [.pdfConversionFailed "aadhar.pdf"], insert "vendors/v1/documents/aadhar.pdf" ∅)) ∧
    "vendors/v1/documents/aadhar.pdf" ∈
      (collect_download_result noPdfOracle constDownloadEnv ∅ ⟨"aadhar.pdf", "a1"⟩ "aadhar").2.2 := by
  have h := pdf_conversion_failure_fallback noPdfOracle {"temp_uploads/s1/a.pdf"} ∅
    "aadhaar" "aadhar" "a.pdf" "temp_uploads/s1/a.pdf" constDownloadEnv
    ⟨"aadhar.pdf", "a1"⟩ "vendors/v1/documents/aadhar.pdf"
    "Failed to convert PDF temp_uploads/s1/a.pdf"
    "Failed to convert PDF vendors/v1/documents/aadhar.pdf"
    (by decide) rfl rfl (by decide) rfl
  exact ⟨by decide, by decide, rfl, h.1, h.2.1, h.2.2⟩

/-- **C7** (corrected) — counterexample to the claim as stated: in
`awaiting_confirmation` the message "confirm update my age" contains both
"confirm" and the keyword "update", but `send_message` takes the
confirmation-success branch, because the confirm branch only excludes
"edit"/"change"/"modify", not "update". -/
theorem confirm_update_counterexample :
    strContains (strLower "confirm update my age") "confirm" = true ∧
    strContains (strLower "confirm update my age") "update" = true ∧
    (send_message sampleAwaitingState "s1" "confirm update my age" ⟨[], none⟩).1 =
      .confirmSuccess := by
  decide

/-- **C7** (amended): in `awaiting_confirmation`, a message containing
"confirm" together with any of "edit"/"change"/"modify" is handled by the edit
path and never yields the confirmation-success response; with none of those
three keywords (even if "update" is present) the confirmation branch runs. -/
theorem confirm_edit_keyword_precedence
    (st : SysState) (session_id msg : String) (env : ExtractEnv)
    (draft : VendorDraft)
    (hd : get_vendor_draft_by_session st session_id = some draft)
    (hstage : draft.chatStage = .awaitingConfirmation)
    (hconfirm : strContains (strLower msg) "confirm" = true) :
    ((["edit", "change", "modify"].any (fun w => strContains (strLower msg) w)) = true →
      ((send_message st session_id msg env).1 = .editFailed ∨
       (send_message st session_id msg env).1 = .editNotUnderstood ∨
       ∃ f v, (send_message st session_id msg env).1 = .editApplied f v) ∧
      (send_message st session_id msg env).1 ≠ .confirmSuccess) ∧
    ((["edit", "change", "modify"].any (fun w => strContains (strLower msg) w)) = false →
      (send_message st session_id msg env).1 = .confirmSuccess) := by
  constructor
  · intro h
    have h4 : edit_keywords.any (fun w => strContains (strLower msg) w) = true := by
      simp only [List.any_eq_true] at h ⊢
      obtain ⟨w, hw, hc⟩ := h
      refine ⟨w, ?_, hc⟩
      simp only [edit_keywords]
      simp only [List.mem_cons, List.not_mem_nil] at hw ⊢
      tauto
    simp only [send_message, handle_awaiting, hd, hstage]
    simp only [reduceCtorEq, if_false, if_true, reduceIte, h, hconfirm, h4,
      Bool.not_true, Bool.and_false]
    cases henv : env.editRes with
    | none => simp
    | some er =>
      by_cases hu : (er.understood = true ∧ ¬er.field = "") ∧ ¬er.newValue = ""
      · constructor
        · right; right
          refine ⟨er.field,
            (if er.field = "gender" then
              match normalize_gender er.newValue with
              | some ng => ng
              | none => er.newValue
            else if er.field = "designation" then normalize_designation er.newValue
            else er.newValue), ?_⟩
          simp [hu]
        · simp [hu]
      · simp [hu]
  · intro h
    simp [send_message, handle_awaiting, hd, hstage, hconfirm, h]

/-- **C7** witness: with "confirm" and "change" in the same message, the edit
path runs (here the edit LLM call fails, giving the edit-failure reply) and
confirmation success is not returned. -/
theorem confirm_edit_keyword_precedence_witness :
    get_vendor_draft_by_session sampleAwaitingState "s1" = some sampleAwaitingDraft ∧
    sampleAwaitingDraft.chatStage = .awaitingConfirmation ∧
    strContains (strLower "confirm but change my age") "confirm" = true ∧
    (["edit", "change", "modify"].any
      (fun w => strContains (strLower "confirm but change my age") w)) = true ∧
    (((send_message sampleAwaitingState "s1" "confirm but change my age" ⟨[], none⟩).1 =
        .editFailed ∨
      (send_message sampleAwaitingState "s1" "confirm but change my age" ⟨[], none⟩).1 =
        .editNotUnderstood ∨
      ∃ f v, (send_message sampleAwaitingState "s1" "confirm but change my age"
        ⟨[], none⟩).1 = .editApplied f v) ∧
     (send_message sampleAwaitingState "s1" "confirm but change my age" ⟨[], none⟩).1 ≠
       .confirmSuccess) :=
  ⟨rfl, rfl, by decide, by decide,
   (confirm_edit_keyword_precedence sampleAwaitingState "s1" "confirm but change my age"
     ⟨[], none⟩ sampleAwaitingDraft rfl rfl (by decide)).1 (by decide)⟩

/-- **C9** (corrected) — counterexample to the claim as stated: with no draft
for the session and `confirmed = false`, `confirm_and_submit` does not fail
with session-not-found; the declined short-circuit runs before the session
lookup and returns the editable-state response with the state unchanged. -/
theorem confirm_declined_missing_session_counterexample :
    get_vendor_draft_by_session ⟨[], [], ∅⟩ "missing-session" = none ∧
    confirm_and_submit zeroSize ⟨[], [], ∅⟩ "missing-session" false =
      (.declined, ⟨[], [], ∅⟩) ∧
    (confirm_and_submit zeroSize ⟨[], [], ∅⟩ "missing-session" false).1 ≠
      .sessionNotFound := by
  refine ⟨rfl, rfl, ?_⟩
  simp [confirm_and_submit]

/-- **C9** (amended): `confirmed = false` always returns the editable-state
(declined) response with no side effects on drafts, vendors, or the
filesystem — for every session id, existing or not; with `confirmed = true`
and no draft for the session, the call fails with session-not-found, again
without side effects. -/
theorem confirm_and_submit_error_semantics
    (sizeOf : String → Nat) (st : SysState) (session_id : String) :
    (∀ confirmed, confirmed = false →
      confirm_and_submit sizeOf st session_id confirmed = (.declined, st)) ∧
    (get_vendor_draft_by_session st session_id = none →
      confirm_and_submit sizeOf st session_id true = (.sessionNotFound, st)) := by
  constructor
  · rintro _ rfl
    simp [confirm_and_submit]
  · intro h
    simp [confirm_and_submit, h]

/-- **C9** witness: the amended semantics at a concrete state — an existing
draft declined with no side effects, and a missing session rejected with
session-not-found. -/
theorem confirm_and_submit_error_semantics_witness :
    (confirm_and_submit zeroSize sampleAwaitingState "s1" false =
      (.declined, sampleAwaitingState)) ∧
    (get_vendor_draft_by_session sampleAwaitingState "nosuch" = none ∧
     confirm_and_submit zeroSize sampleAwaitingState "nosuch" true =
       (.sessionNotFound, sampleAwaitingState)) :=
  ⟨(confirm_and_submit_error_semantics zeroSize sampleAwaitingState "s1").1 false rfl,
   by decide,
   (confirm_and_submit_error_semantics zeroSize sampleAwaitingState "nosuch").2 (by decide)⟩

/-- **C8**: on the chat confirm-and-submit path and on the webhook
materialisation path alike, the generated vendor identifier is
`generate_vendor_id email (current vendor count + 1)`, i.e.
`VENDOR_{zero-padded counter}_{email with '@' and '.' replaced by '_'}`. -/
theorem vendor_id_format_both_paths
    (sizeOf : String → Nat) (st : SysState) (session_id : String)
    (draft : VendorDraft) (e : String)
    (hd : get_vendor_draft_by_session st session_id = some draft)
    (hstage : draft.chatStage = .awaitingConfirmation)
    (he : getField draft.basicDetails "email_id" = some e)
    (pdfPages : String → Option (List Nat)) (denv : DownloadEnv)
    (fs : Finset String) (db : DBState) (email_id : String)
    (atts : List Attachment) :
    (∃ n, (confirm_and_submit sizeOf st session_id true).1 =
      .created (generate_vendor_id e (st.vendors.length + 1)) n) ∧
    ((_create_vendor_and_download pdfPages denv fs db email_id (some e) atts).1 =
      generate_vendor_id e (db.vendors.length + 1)) ∧
    (∃ rec, (_create_vendor_and_download pdfPages denv fs db email_id
        (some e) atts).2.2.vendors = db.vendors ++ [rec] ∧
      rec.vendorId = generate_vendor_id e (db.vendors.length + 1)) ∧
    generate_vendor_id e (st.vendors.length + 1) =
      "VENDOR_" ++ padZeros4 (st.vendors.length + 1) ++ "_" ++ sanitize_email e := by
  refine ⟨?_, ?_, ?_, rfl⟩
  · simp only [confirm_and_submit, hd, hstage, he, generate_vendor_id]
    simp
  · simp [_create_vendor_and_download, generate_vendor_id]
  · exact ⟨_, rfl, by simp [_create_vendor_and_download, generate_vendor_id]⟩

/-- **C8** witness: both paths at concrete inputs produce
`VENDOR_0001_ankit_gmail_com`. -/
theorem vendor_id_format_both_paths_witness :
    get_vendor_draft_by_session sampleAwaitingState "s1" = some sampleAwaitingDraft ∧
    getField sampleAwaitingDraft.basicDetails "email_id" = some "ankit@gmail.com" ∧
    (∃ n, (confirm_and_submit zeroSize sampleAwaitingState "s1" true).1 =
      .created (generate_vendor_id "ankit@gmail.com"
        (sampleAwaitingState.vendors.length + 1)) n) ∧
    ((_create_vendor_and_download noPdfOracle trivialDownloadEnv ∅ ⟨[], [], [], []⟩
        "m1" (some "ankit@gmail.com") []).1 =
      generate_vendor_id "ankit@gmail.com" ((⟨[], [], [], []⟩ : DBState).vendors.length + 1)) ∧
    generate_vendor_id "ankit@gmail.com" 1 = "VENDOR_0001_ankit_gmail_com" :=
  ⟨rfl, rfl,
   (vendor_id_format_both_paths zeroSize sampleAwaitingState "s1" sampleAwaitingDraft
     "ankit@gmail.com" rfl rfl rfl noPdfOracle trivialDownloadEnv ∅ ⟨[], [], [], []⟩
     "m1" []).1,
   (vendor_id_format_both_paths zeroSize sampleAwaitingState "s1" sampleAwaitingDraft
     "ankit@gmail.com" rfl rfl rfl noPdfOracle trivialDownloadEnv ∅ ⟨[], [], [], []⟩
     "m1" []).2.1,
   by decide⟩

/-- **C1**: an inbound webhook event whose email id already has an entry in the
processed-emails log is answered `already_processed` with no further work — no
vendor insert, no rejection entry, no processed-entry change, zero downloads
submitted; consequently, for any pair of sequential `process_webhook` calls
with the same event email id, at most one VendorRecord is inserted into the
vendors collection. -/
theorem process_webhook_event_idempotency
    (pdfPages : String → Option (List Nat)) (env : WebhookEnv) (fs : Finset String)
    (st : DBState) (ev : WebhookEvent) (i : String) (hE : ev.emailId = some i) :
    (st.processedEmails.any (fun e => e.emailId = i) = true →
      (process_webhook pdfPages env fs st ev).status = "already_processed" ∧
      (process_webhook pdfPages env fs st ev).db.processedEmails = st.processedEmails ∧
      (process_webhook pdfPages env fs st ev).db.vendors = st.vendors ∧
      (process_webhook pdfPages env fs st ev).db.rejectedEmails = st.rejectedEmails ∧
      (process_webhook pdfPages env fs st ev).downloadsSubmitted = []) ∧
    (∀ (pdfPages2 : String → Option (List Nat)) (env2 : WebhookEnv)
      (fs2 : Finset String) (ev2 : WebhookEvent), ev2.emailId = some i →
      (process_webhook pdfPages2 env2 fs2
        (process_webhook pdfPages env fs st ev).db ev2).db.vendors.length ≤
        st.vendors.length + 1) := by
  constructor
  · intro hP
    exact process_webhook_already_aux pdfPages env fs st ev i hE hP
  · intro p2 e2 f2 ev2 hE2
    rcases process_webhook_cases pdfPages env fs st ev i hE with hU | hM
    · have h2 := process_webhook_le p2 e2 f2 (process_webhook pdfPages env fs st ev).db ev2
      rw [hU] at h2
      exact h2
    · have h2 := process_webhook_already_aux p2 e2 f2
        (process_webhook pdfPages env fs st ev).db ev2 i hE2 hM
      rw [h2.2.2.1]
      exact process_webhook_le pdfPages env fs st ev

/-- **C1** witness: a concretely already-processed event is short-circuited,
and replaying it leaves at most one vendor record. -/
theorem process_webhook_event_idempotency_witness :
    dupEvent.emailId = some "m1" ∧
    processedSt.processedEmails.any (fun e => e.emailId = "m1") = true ∧
    ((process_webhook noPdfOracle trivialWebhookEnv ∅ processedSt dupEvent).status =
        "already_processed" ∧
     (process_webhook noPdfOracle trivialWebhookEnv ∅ processedSt
        dupEvent).db.processedEmails = processedSt.processedEmails ∧
     (process_webhook noPdfOracle trivialWebhookEnv ∅ processedSt
        dupEvent).db.vendors = processedSt.vendors ∧
     (process_webhook noPdfOracle trivialWebhookEnv ∅ processedSt
        dupEvent).db.rejectedEmails = processedSt.rejectedEmails ∧
     (process_webhook noPdfOracle trivialWebhookEnv ∅ processedSt
        dupEvent).downloadsSubmitted = []) ∧
    (process_webhook noPdfOracle trivialWebhookEnv ∅
      (process_webhook noPdfOracle trivialWebhookEnv ∅ processedSt dupEvent).db
      dupEvent).db.vendors.length ≤ processedSt.vendors.length + 1 :=
  ⟨rfl, by decide,
   (process_webhook_event_idempotency noPdfOracle trivialWebhookEnv ∅ processedSt
     dupEvent "m1" rfl).1 (by decide),
   (process_webhook_event_idempotency noPdfOracle trivialWebhookEnv ∅ processedSt
     dupEvent "m1" rfl).2 noPdfOracle trivialWebhookEnv ∅ dupEvent rfl⟩

/-- **C3** (corrected) — counterexample to the claim as stated: an event whose
subject lacks the keywords but whose email id was already processed terminates
with `already_processed`, not `rejected`: the idempotency check (step 1)
precedes subject validation (step 2). -/
theorem invalid_subject_already_processed_counterexample :
    validate_subject_valid badSubjectEvent.subject = false ∧
    (process_webhook noPdfOracle trivialWebhookEnv ∅ processedSt
      badSubjectEvent).status = "already_processed" ∧
    (process_webhook noPdfOracle trivialWebhookEnv ∅ processedSt
      badSubjectEvent).status ≠ "rejected" := by
  decide

/-- **C3** (amended): for every webhook event carrying an email id that is not
yet in the processed-emails log, if the subject does not contain both keywords
(case-insensitive), `process_webhook` terminates `rejected` before any
attachment inspection: zero downloads are submitted, no VendorRecord is
created, the rejection is recorded with reason `invalid_subject`, and the
audit log gains a `rejected` entry naming the invalid subject line. -/
theorem invalid_subject_rejected_before_downloads
    (pdfPages : String → Option (List Nat)) (env : WebhookEnv) (fs : Finset String)
    (st : DBState) (ev : WebhookEvent) (i : String) (hE : ev.emailId = some i)
    (hNew : st.processedEmails.any (fun e => e.emailId = i) = false)
    (hSubj : validate_subject_valid ev.subject = false) :
    (process_webhook pdfPages env fs st ev).status = "rejected" ∧
    (process_webhook pdfPages env fs st ev).downloadsSubmitted = [] ∧
    (process_webhook pdfPages env fs st ev).db.vendors = st.vendors ∧
    (process_webhook pdfPages env fs st ev).db.processedEmails = st.processedEmails ∧
    (process_webhook pdfPages env fs st ev).db.rejectedEmails =
      st.rejectedEmails ++ [⟨i, "invalid_subject", ev.subject, []⟩] ∧
    (process_webhook pdfPages env fs st ev).db.webhookLogs =
      st.webhookLogs ++ [⟨some i, "rejected", some "Invalid subject line"⟩] := by
  unfold process_webhook
  rw [hE]
  dsimp only
  rw [if_neg (by simp [hNew]), if_pos (by simp [hSubj])]
  exact ⟨rfl, rfl, rfl, rfl, rfl, rfl⟩

/-- **C3** witness: a fresh event with subject "hello there" is rejected with
zero downloads and no vendor created. -/
theorem invalid_subject_rejected_before_downloads_witness :
    freshBadSubjectEvent.emailId = some "m2" ∧
    processedSt.processedEmails.any (fun e => e.emailId = "m2") = false ∧
    validate_subject_valid freshBadSubjectEvent.subject = false ∧
    ((process_webhook noPdfOracle trivialWebhookEnv ∅ processedSt
        freshBadSubjectEvent).status = "rejected" ∧
     (process_webhook noPdfOracle trivialWebhookEnv ∅ processedSt
        freshBadSubjectEvent).downloadsSubmitted = [] ∧
     (process_webhook noPdfOracle trivialWebhookEnv ∅ processedSt
        freshBadSubjectEvent).db.vendors = processedSt.vendors ∧
     (process_webhook noPdfOracle trivialWebhookEnv ∅ processedSt
        freshBadSubjectEvent).db.processedEmails = processedSt.processedEmails ∧
     (process_webhook noPdfOracle trivialWebhookEnv ∅ processedSt
        freshBadSubjectEvent).db.rejectedEmails = processedSt.rejectedEmails ++
          [⟨"m2", "invalid_subject", freshBadSubjectEvent.subject, []⟩] ∧
     (process_webhook noPdfOracle trivialWebhookEnv ∅ processedSt
        freshBadSubjectEvent).db.webhookLogs = processedSt.webhookLogs ++
          [⟨some "m2", "rejected", some "Invalid subject line"⟩]) :=
  ⟨rfl, by decide, by decide,
   invalid_subject_rejected_before_downloads noPdfOracle trivialWebhookEnv ∅
     processedSt freshBadSubjectEvent "m2" rfl (by decide) (by decide)⟩

/-- **C2**: in every system state reachable through the chat operations
(start, messages, document uploads, confirm-and-submit), every draft whose
stage is `awaiting_confirmation` has uploaded temp-document kinds covering
all three mandatory kinds aadhaar, pan and gst. -/
theorem chat_awaiting_confirmation_requires_mandatory_docs
    (st : SysState) (h : Reachable st) :
    ∀ d ∈ st.drafts, draftDocKindsComplete d := by
  induction h with
  | init =>
    intro d hd
    simp at hd
  | start st0 draftId session_id _ ih =>
    intro d hd
    simp only [start_chat, create_vendor_draft, List.mem_append, List.mem_filter,
      List.mem_singleton] at hd
    rcases hd with ⟨hd0, _⟩ | rfl
    · exact ih d hd0
    · exact fun hc => by simp at hc
  | message st0 session_id msg env _ ih =>
    exact send_message_drafts_inv st0 session_id msg env ih
  | upload st0 pdfPages session_id document_type filename _ ih =>
    exact upload_drafts_inv pdfPages st0 session_id document_type filename ih
  | confirm st0 sizeOf session_id confirmed _ ih =>
    exact confirm_drafts_inv sizeOf st0 session_id confirmed ih

/-- **C2** witness: the invariant instantiated at a concretely reachable
state — a freshly started session's draft. -/
theorem chat_awaiting_confirmation_requires_mandatory_docs_witness :
    draftDocKindsComplete
      { id := "d1", sessionId := "s1", chatStage := .welcome,
        basicDetails := [], tempDocumentPaths := [], isCompleted := false } :=
  chat_awaiting_confirmation_requires_mandatory_docs
    (start_chat ⟨[], [], ∅⟩ "d1" "s1")
    (Reachable.start ⟨[], [], ∅⟩ "d1" "s1" Reachable.init)
    { id := "d1", sessionId := "s1", chatStage := .welcome,
      basicDetails := [], tempDocumentPaths := [], isCompleted := false }
    (by decide)

end VendorProc

